import Mathlib

/-
  Verification development for the FlowFix extraction engine.

  The definitions below are a shallow embedding of the JavaScript sources
  src/content/make.js and src/popup/popup.js (content extractor, health
  scorer, retry controller, popup startup logic and background message
  handler).  JS numbers are modelled as exact rationals (every numeric
  value reached by the claims is a small dyadic or decimal rational,
  hence exactly representable in IEEE binary64, so the rational model is
  exact on them); the JS values null and NaN are modelled explicitly by
  the JSVal type.  DOM queries are abstracted: an element is a record of
  the attributes the selectors in the source consult, and each
  query-result the extractor reads is a field of a document model, so
  the control flow of the source functions is mirrored one to one.

  Exact rationals are given by the type Q below, a normalized
  numerator-denominator pair whose operations reduce inside the kernel
  (a fuel-driven Euclid gcd keeps every definition structurally
  recursive), so concrete runs of the embedded code are settled by
  decide.
-/

namespace FlowFix

/-- Fuel-driven Euclid gcd on naturals; fuel at least m + 1 always
suffices since the first argument strictly decreases. -/
def gcdFuel : ℕ → ℕ → ℕ → ℕ
  | 0, _, n => n
  | fuel + 1, m, n => if m = 0 then n else gcdFuel fuel (n % m) m

/-- Greatest common divisor, kernel-reducible. -/
def natGcd (m n : ℕ) : ℕ := gcdFuel (m + 1) m n

/-- Exact rational number: numerator and positive denominator, kept in
lowest terms by the smart constructor qmk, so that structural equality
coincides with value equality on every value the model produces. -/
structure Q where
  n : ℤ
  d : ℤ
deriving DecidableEq, Repr

/-- Normalizing constructor: sign on the numerator, lowest terms.  A zero
denominator (never reached by the modelled code, whose divisions are all
guarded) is mapped to 0. -/
def qmk (a b : ℤ) : Q :=
  if b = 0 then ⟨0, 1⟩
  else
    let a2 := if b < 0 then -a else a
    let b2 := if b < 0 then -b else b
    let g : ℤ := (natGcd a2.natAbs b2.natAbs : ℤ)
    ⟨a2.tdiv g, b2.tdiv g⟩

def qadd (x y : Q) : Q := qmk (x.n * y.d + y.n * x.d) (x.d * y.d)

def qneg (x : Q) : Q := ⟨-x.n, x.d⟩

def qsub (x y : Q) : Q := qadd x (qneg y)

def qmul (x y : Q) : Q := qmk (x.n * y.n) (x.d * y.d)

def qdiv (x y : Q) : Q := qmk (x.n * y.d) (x.d * y.n)

instance : OfNat Q k where
  ofNat := ⟨(k : ℤ), 1⟩

instance : Add Q := ⟨qadd⟩
instance : Sub Q := ⟨qsub⟩
instance : Mul Q := ⟨qmul⟩
instance : Div Q := ⟨qdiv⟩
instance : Neg Q := ⟨qneg⟩

/-- Order on Q by cross-multiplication (denominators are positive). -/
instance : LE Q := ⟨fun x y => x.n * y.d ≤ y.n * x.d⟩

instance : LT Q := ⟨fun x y => x.n * y.d < y.n * x.d⟩

instance (x y : Q) : Decidable (x ≤ y) := Int.decLe _ _

instance (x y : Q) : Decidable (x < y) := Int.decLt _ _

/-- Embed a natural number. -/
def qofNat (k : ℕ) : Q := ⟨(k : ℤ), 1⟩

/-- Embed an integer. -/
def qofInt (i : ℤ) : Q := ⟨i, 1⟩

/-- Floor of a Q as an integer (Int.fdiv rounds toward negative
infinity, matching Math.floor). -/
def qfloor (x : Q) : ℤ := Int.fdiv x.n x.d

/-- Natural power on Q. -/
def qpow (x : Q) : ℕ → Q
  | 0 => 1
  | k + 1 => qmul x (qpow x k)

/-- Integer power on Q (used by the exponent part of parseFloat). -/
def qzpow (x : Q) : ℤ → Q
  | .ofNat k => qpow x k
  | .negSucc k => qdiv 1 (qpow x (k + 1))

example : ((3 : Q) / 2) * 500 = 750 := by decide
example : qfloor ((7 : Q) / 2) = 3 := by decide
example : ((1 : Q) / 3) + ((2 : Q) / 3) = 1 := by decide

/-- Model of the JS values produced by the numeric helpers in make.js:
either null, NaN, or a finite number modelled as an exact rational. -/
inductive JSVal where
  | null : JSVal
  | nan : JSVal
  | num : Q → JSVal
deriving DecidableEq, Repr

/-- JS truthiness of a JSVal: null and NaN are falsy, a number is falsy
exactly when it is 0. -/
def truthy : JSVal → Bool
  | .null => false
  | .nan => false
  | .num q => q ≠ (0 : Q)

/-- Numeric coercion used where the source applies a JS or-default,
as in the expression totalScenarios or-else 0: null, NaN and 0 give 0. -/
def jsNumOrZero : JSVal → Q
  | .num q => q
  | _ => 0

/-- Model of Math.min on ordinary (non-NaN) numbers. -/
def jsMin (a b : Q) : Q := if a ≤ b then a else b

/-- Model of Math.round: round half toward positive infinity. -/
def jsRound (q : Q) : ℤ := qfloor (q + 1 / 2)

example : jsRound ((40 : Q) / 3) = 13 := by decide

/-- Digit list to natural number, base 10 (models parseInt on an
all-digit token). -/
def digitsToNat (l : List Char) : ℕ :=
  l.foldl (fun a c => 10 * a + (c.toNat - 48)) 0

/-- Span of a character predicate: longest prefix satisfying it, and the
rest.  Own definition (rather than List.span) to keep proofs direct. -/
def takeWhileP (p : Char → Bool) : List Char → List Char × List Char
  | [] => ([], [])
  | c :: cs =>
    if p c then
      let r := takeWhileP p cs
      (c :: r.1, r.2)
    else ([], c :: cs)

/-- Maximal runs of characters satisfying p, in order (models the global
regex match of one character class).  The accumulator holds the current
run reversed. -/
def runsOfAux (p : Char → Bool) : List Char → List Char → List (List Char)
  | [], cur => if cur.isEmpty then [] else [cur.reverse]
  | c :: cs, cur =>
    if p c then runsOfAux p cs (c :: cur)
    else if cur.isEmpty then runsOfAux p cs []
    else cur.reverse :: runsOfAux p cs []

/-- Maximal runs of characters satisfying p. -/
def runsOf (p : Char → Bool) (l : List Char) : List (List Char) :=
  runsOfAux p l []

/-- First maximal run of characters satisfying p (models a non-global
regex match of one character class, as in the digit-dot match of
extractNumber). -/
def firstRun (p : Char → Bool) (l : List Char) : Option (List Char) :=
  (runsOf p l).head?

/-- Optional leading sign: returns (isNegative, rest). -/
def parseSignC (cs : List Char) : Bool × List Char :=
  match cs with
  | [] => (false, [])
  | c :: r => if c = '-' then (true, r) else if c = '+' then (false, r) else (false, c :: r)

/-- Fractional part after the integer digits: a dot followed by digits. -/
def parseFracC (cs : List Char) : List Char × List Char :=
  match cs with
  | c :: r => if c = '.' then takeWhileP Char.isDigit r else ([], c :: r)
  | [] => ([], [])

/-- Optional exponent part; parseFloat ignores a dangling exponent marker
with no digits, which is modelled by exponent 0. -/
def parseExpC (cs : List Char) : ℤ :=
  match cs with
  | c :: r =>
    if c = 'e' ∨ c = 'E' then
      let sn := parseSignC r
      let ed := takeWhileP Char.isDigit sn.2
      if ed.1.isEmpty then 0
      else if sn.1 then -(digitsToNat ed.1 : ℤ) else (digitsToNat ed.1 : ℤ)
    else 0
  | [] => 0

/-- Model of JS parseFloat on a character list: skip leading whitespace,
optional sign, integer digits, optional dot and fraction digits, optional
exponent; trailing garbage is ignored; NaN when no digit was read.  The
Infinity literal is not modelled (no code path of the claims reaches
it). -/
def parseFloatL (cs0 : List Char) : JSVal :=
  let cs1 := cs0.dropWhile Char.isWhitespace
  let sn := parseSignC cs1
  let ip := takeWhileP Char.isDigit sn.2
  let fr := parseFracC ip.2
  if ip.1.isEmpty && fr.1.isEmpty then JSVal.nan
  else
    let e := parseExpC fr.2
    let mag : Q := qofNat (digitsToNat ip.1) + qofNat (digitsToNat fr.1) / qpow 10 fr.1.length
    JSVal.num ((if sn.1 then -mag else mag) * qzpow 10 e)

/-- Model of the trim method of JS strings: strip whitespace at both
ends. -/
def strTrim (s : String) : String :=
  String.mk (((s.toList.dropWhile Char.isWhitespace).reverse.dropWhile Char.isWhitespace).reverse)

/-- The character class used by extractNumber in make.js: digits and the
dot. -/
def numC (c : Char) : Bool := c.isDigit || c = '.'

/-- Embedding of extractNumber (make.js lines 77-82): on the empty string
(the only falsy string) return null; otherwise delete commas and
whitespace, take the first run of digits-or-dots, and parseFloat it;
null when no such run exists. -/
def extractNumber (text : String) : JSVal :=
  if text = "" then JSVal.null
  else
    let cleaned := text.toList.filter (fun c => !(c == ',') && !c.isWhitespace)
    match firstRun numC cleaned with
    | none => JSVal.null
    | some run => parseFloatL run

example : extractNumber "1,234" = JSVal.num 1234 := by decide
example : extractNumber "42%" = JSVal.num 42 := by decide
example : extractNumber "" = JSVal.null := by decide
example : extractNumber "." = JSVal.nan := by decide
example : extractNumber " 3.5 runs" = JSVal.num (7 / 2) := by decide

/-- Lowercasing of a string, character by character (models the JS
toLowerCase call on the ASCII text the status terms use). -/
def strToLower (s : String) : String := String.mk (s.toList.map Char.toLower)

/-- Boolean prefix test on character lists. -/
def isPrefixOfB : List Char → List Char → Bool
  | [], _ => true
  | _ :: _, [] => false
  | a :: as, b :: bs => a == b && isPrefixOfB as bs

/-- Boolean infix test on character lists (models the JS includes
method and the CSS substring attribute operator). -/
def isInfixOfB (needle hay : List Char) : Bool :=
  match hay with
  | [] => needle.isEmpty
  | _ :: t => isPrefixOfB needle hay || isInfixOfB needle t

/-- String containment: does hay contain needle as a substring. -/
def strContains (hay needle : String) : Bool := isInfixOfB needle.toList hay.toList

example : strContains "status-row" "status" = true := by decide
example : strContains "row" "status" = false := by decide

/-- Model of a DOM element as the record of exactly the attributes the
selectors of countScenariosByStatus and extractScenarioList consult. -/
structure Elem where
  testid : Option String := none
  dataStatus : Option String := none
  ariaLabel : Option String := none
  role : Option String := none
  className : String := ""
  text : String := ""
  ariaChecked : Option String := none
  isCheckbox : Bool := false
  checked : Bool := false
deriving DecidableEq, Repr

/-- Selector data-testid equals v. -/
def selTestIdEq (v : String) (e : Elem) : Bool := e.testid == some v

/-- Selector data-status equals v. -/
def selDataStatusEq (v : String) (e : Elem) : Bool := e.dataStatus == some v

/-- Selector aria-label contains term (case-insensitive, the i flag)
and role is status. -/
def selAriaStatus (term : String) (e : Elem) : Bool :=
  (match e.ariaLabel with
   | some a => strContains (strToLower a) (strToLower term)
   | none => false) && e.role == some "status"

/-- Selector data-testid contains sub (case-sensitive substring
operator). -/
def selTestIdHas (sub : String) (e : Elem) : Bool :=
  match e.testid with
  | some v => strContains v sub
  | none => false

/-- Selector class attribute contains sub as a substring. -/
def selClassHas (sub : String) (e : Elem) : Bool := strContains e.className sub

/-- Selector role equals r. -/
def selRoleEq (r : String) (e : Elem) : Bool := e.role == some r

/-- Selector matching the class-name token w (the dot selector). -/
def selClassWord (w : String) (e : Elem) : Bool := (e.className.splitOn " ").contains w

/-- Selector role switch with the given aria-checked value. -/
def selSwitchChecked (v : String) (e : Elem) : Bool :=
  e.role == some "switch" && e.ariaChecked == some v

/-- Selector checkbox in the given checked state (the checked and
not-checked pseudo-classes). -/
def selCheckbox (want : Bool) (e : Elem) : Bool := e.isCheckbox && e.checked == want

/-- Embedding of queryAllFirst (make.js lines 37-48): evaluate the
selectors in order and return the match list of the first selector with
a non-empty result, else the empty list. -/
def queryAllFirst (ps : List (Elem → Bool)) (doc : List Elem) : List Elem :=
  match ps with
  | [] => []
  | p :: rest =>
    if (doc.filter p).isEmpty then queryAllFirst rest doc else doc.filter p

/-- The synonym table of countScenariosByStatus (make.js lines 188-193). -/
def statusTerms (status : String) : List String :=
  if status = "active" then ["active", "on", "running", "enabled", "scheduling"]
  else if status = "error" then ["error", "failed", "broken", "warning"]
  else if status = "inactive" then ["inactive", "off", "disabled", "stopped", "paused"]
  else [status]

/-- Strategy 1 of countScenariosByStatus (lines 196-202): for each
synonym in order, query the three structured selectors; return the match
count of the first synonym with a non-empty result. -/
def strat1Count (doc : List Elem) : List String → Option ℕ
  | [] => none
  | t :: ts =>
    let els := queryAllFirst
      [selTestIdEq ("scenario-status-" ++ t), selDataStatusEq t, selAriaStatus t] doc
    if els.length > 0 then some els.length else strat1Count doc ts

/-- The status-element collection of strategy 2 (lines 207-214). -/
def statusEls (doc : List Elem) : List Elem :=
  queryAllFirst
    [selTestIdHas "status", selClassHas "status", selClassHas "Status",
     selRoleEq "status", selClassWord "imt-toggle", selClassHas "toggle"] doc

/-- The combined text strategy 2 matches against: lowercased trimmed
text content, a space, and the lowercased aria-label (lines 216-218). -/
def combinedText (e : Elem) : String :=
  strTrim (strToLower e.text) ++ " " ++ strToLower ((e.ariaLabel).getD "")

/-- Strategy 2 of countScenariosByStatus (lines 205-221): count the
status elements whose combined text contains at least one synonym; the
some-combinator of the source means one element is counted once however
many synonyms it matches. -/
def strat2Count (doc : List Elem) (terms : List String) : ℕ :=
  ((statusEls doc).filter (fun e => terms.any (fun t => strContains (combinedText e) t))).length

/-- Strategy 3 of countScenariosByStatus (lines 224-237): toggle state,
only for the active and inactive categories. -/
def strat3Count (doc : List Elem) (status : String) : Option ℕ :=
  if status = "active" then
    some (queryAllFirst [selSwitchChecked "true", selCheckbox true] doc).length
  else if status = "inactive" then
    some (queryAllFirst [selSwitchChecked "false", selCheckbox false] doc).length
  else none

/-- Embedding of countScenariosByStatus (make.js lines 187-240): the
first strategy with a non-zero result wins; strategy 3 is returned
unconditionally (even when zero) for active and inactive; otherwise 0. -/
def countScenariosByStatus (doc : List Elem) (status : String) : ℕ :=
  let terms := statusTerms status
  match strat1Count doc terms with
  | some k => k
  | none =>
    let c := strat2Count doc terms
    if c > 0 then c
    else
      match strat3Count doc status with
      | some k => k
      | none => 0

/-- An element carrying only a data-status value. -/
def rowStatusElem (s : String) : Elem := { dataStatus := some s }

example :
    countScenariosByStatus
      (List.replicate 2 (rowStatusElem "error") ++ List.replicate 3 (rowStatusElem "paused"))
      "error" = 2 := by decide
example :
    countScenariosByStatus
      (List.replicate 2 (rowStatusElem "error") ++ List.replicate 3 (rowStatusElem "paused"))
      "inactive" = 3 := by decide

/-- Embedding of findValueNearLabel (make.js lines 64-75), at the level
of text: the argument is the text content of the closest block ancestor
of the first text node containing the label (none when no such node
exists).  The source deletes commas, collects every digit run, parseInts
each and returns the largest, or null when there is none. -/
def findValueNearLabel (parentText : Option String) : Option ℕ :=
  match parentText with
  | none => none
  | some t =>
    let ns := (runsOf Char.isDigit (t.toList.filter (fun c => !(c == ',')))).map digitsToNat
    match ns with
    | [] => none
    | x :: xs => some (xs.foldl Nat.max x)

example : findValueNearLabel (some "Operations 1,234 of 10,000") = some 10000 := by decide

/-- Separator of the usage-ratio regex: the literal of, or a slash. -/
def ratioSepC (cs : List Char) : Option (List Char) :=
  match cs with
  | c1 :: r =>
    if c1 = '/' then some r
    else
      match r with
      | c2 :: r2 => if c1 = 'o' ∧ c2 = 'f' then some r2 else none
      | [] => none
  | [] => none

/-- Attempt to match the pattern digits, optional spaces, of-or-slash,
optional spaces, digits at the start of the list; on success return the
two parsed numbers.  Maximal munch on the digit groups is faithful to
the regex: shortening a greedy digit group can never make the separator
match, since no digit starts the of keyword or the slash. -/
def ratioAt (cs : List Char) : Option (ℕ × ℕ) :=
  let a := takeWhileP Char.isDigit cs
  if a.1.isEmpty then none
  else
    match ratioSepC (a.2.dropWhile Char.isWhitespace) with
    | none => none
    | some rest =>
      let b := takeWhileP Char.isDigit (rest.dropWhile Char.isWhitespace)
      if b.1.isEmpty then none else some (digitsToNat a.1, digitsToNat b.1)

/-- Leftmost match of the usage-ratio pattern (the regex of make.js
line 137 applied to comma-stripped text). -/
def ratioScan : List Char → Option (ℕ × ℕ)
  | [] => none
  | c :: cs =>
    match ratioAt (c :: cs) with
    | some r => some r
    | none => ratioScan cs

example : ratioScan ("Operations 1234 of 10000".toList) = some (1234, 10000) := by decide

/-- Abstract document model for the Make extractor: each field is the
result of one DOM query group of make.js, so the fallback control flow
of the extraction functions can be mirrored exactly.  A none means the
corresponding query matched nothing. -/
structure MakeDoc where
  url : String := ""
  opsUsedTestIdText : Option String := none
  opsUsedAriaText : Option String := none
  opsLabelParentText : Option String := none
  opsProgressValuenow : Option String := none
  opsLimitTestIdText : Option String := none
  opsLimitAriaText : Option String := none
  opsLabelBlockText : Option String := none
  opsLimitLabelParentText : Option String := none
  opsProgressValuemax : Option String := none
  scenarioRows : List Elem := []
  scenarioCountText : Option String := none
  elems : List Elem := []
  planTestIdText : Option String := none
  planBlockText : Option String := none
  teamText : Option String := none
deriving DecidableEq, Repr

/-- Embedding of extractOperationsUsed (make.js lines 91-116): each
strategy returns as soon as its query matches (even when the matched
element yields no number); the text strategy uses the
largest-number-near-label heuristic; the progressbar strategy reads
aria-valuenow through parseFloat when the attribute string is truthy. -/
def extractOperationsUsed (d : MakeDoc) : JSVal :=
  match d.opsUsedTestIdText with
  | some t => extractNumber (strTrim t)
  | none =>
  match d.opsUsedAriaText with
  | some t => extractNumber (strTrim t)
  | none =>
  match findValueNearLabel d.opsLabelParentText with
  | some v => JSVal.num (qofNat v)
  | none =>
  match d.opsProgressValuenow with
  | some a => if a = "" then JSVal.null else parseFloatL a.toList
  | none => JSVal.null

/-- Embedding of extractOperationsLimit (make.js lines 118-153):
testid, then aria-label, then the of-or-slash ratio scan over the text
block around the operations label (returning the second group), then the
near-label heuristic for the operations-limit label, then the
progressbar aria-valuemax. -/
def extractOperationsLimit (d : MakeDoc) : JSVal :=
  match d.opsLimitTestIdText with
  | some t => extractNumber (strTrim t)
  | none =>
  match d.opsLimitAriaText with
  | some t => extractNumber (strTrim t)
  | none =>
  match (match d.opsLabelBlockText with
         | some t => ratioScan (t.toList.filter (fun c => !(c == ',')))
         | none => none) with
  | some pr => JSVal.num (qofNat pr.2)
  | none =>
  match findValueNearLabel d.opsLimitLabelParentText with
  | some v => JSVal.num (qofNat v)
  | none =>
  match d.opsProgressValuemax with
  | some a => if a = "" then JSVal.null else parseFloatL a.toList
  | none => JSVal.null

/-- Embedding of extractPlanName (make.js lines 242-264): a matched
plan element wins; otherwise the first known plan word contained in the
text block around a plan label. -/
def extractPlanName (d : MakeDoc) : Option String :=
  match d.planTestIdText with
  | some t => some (strTrim t)
  | none =>
    match d.planBlockText with
    | some t =>
      ["Free", "Core", "Pro", "Teams", "Enterprise"].find? (fun p => strContains (strTrim t) p)
    | none => none

/-- Embedding of extractTeamName (make.js lines 266-275). -/
def extractTeamName (d : MakeDoc) : Option String :=
  match d.teamText with
  | some t => some (strTrim t)
  | none => none

/-- The totalScenarios expression of extractMakeMetrics (make.js lines
281-284): the row count when non-zero (JS or-else on a number), else the
parsed scenario-count element, which may be null. -/
def totalScenariosRaw (d : MakeDoc) : JSVal :=
  if d.scenarioRows.length ≠ 0 then JSVal.num (qofNat d.scenarioRows.length)
  else
    match d.scenarioCountText with
    | some t => extractNumber (strTrim t)
    | none => JSVal.null

/-- The usage-percent computation of extractMakeMetrics (lines 310-312):
guarded by JS truthiness of both operands, so a present used-count of 0
or limit of 0 (and NaN and null) leave the field null. -/
def usagePercentField (used limit : JSVal) : Option ℤ :=
  if truthy used && truthy limit then
    some (jsRound (jsNumOrZero used / jsNumOrZero limit * 100))
  else none

/-- The error-rate computation of extractMakeMetrics (lines 314-316):
only when the (already coerced) total is positive. -/
def errorRateField (total : Q) (errors : ℕ) : Option ℤ :=
  if 0 < total then some (jsRound (qofNat errors / total * 100)) else none

/-- Embedding of calculateHealthScore (make.js lines 323-342).  The
usage and error penalties are guarded by JS truthiness (a zero percent
or rate is skipped, which changes nothing numerically); the inactive
penalty is half the inactive rate capped at 15. -/
def calculateHealthScore (usagePct errRate : Option ℤ) (inactive : ℕ) (total : Q) : ℤ :=
  let s0 : Q := 100
  let s1 : Q :=
    match usagePct with
    | some p =>
      if p ≠ 0 then
        (if 90 < p then s0 - 30 else if 75 < p then s0 - 15 else if 50 < p then s0 - 5 else s0)
      else s0
    | none => s0
  let s2 : Q :=
    match errRate with
    | some r => if r ≠ 0 then s1 - jsMin (qofInt r * 2) 40 else s1
    | none => s1
  let s3 : Q :=
    if 0 < inactive ∧ 0 < total then s2 - jsMin (qofNat inactive / total * 100 / 2) 15
    else s2
  let r := jsRound s3
  if r < 0 then 0 else r

/-- The metric set produced by one extraction pass, with the same field
behaviour as the JS object of make.js lines 292-318: fields that the
source leaves null when unresolved are Options or JSVal, while
totalScenarios is a plain number because the source coerces it with
or-else 0. -/
structure Metrics where
  platform : String
  url : String
  timestamp : Option ℤ
  operationsUsed : JSVal
  operationsLimit : JSVal
  totalScenarios : Q
  activeScenarios : ℕ
  errorScenarios : ℕ
  inactiveScenarios : ℕ
  planName : Option String
  teamName : Option String
  operationsUsagePercent : Option ℤ
  errorRate : Option ℤ
  healthScore : ℤ
deriving DecidableEq, Repr

/-- Embedding of extractMakeMetrics (make.js lines 279-321).  The clock
is passed in as the capturedAt argument (the source reads the wall
clock); the version string is omitted. -/
def extractMakeMetrics (d : MakeDoc) (capturedAt : ℤ) : Metrics :=
  let operationsUsed := extractOperationsUsed d
  let operationsLimit := extractOperationsLimit d
  let activeScenarios := countScenariosByStatus d.elems "active"
  let errorScenarios := countScenariosByStatus d.elems "error"
  let inactiveScenarios := countScenariosByStatus d.elems "inactive"
  let totalScenarios : Q := jsNumOrZero (totalScenariosRaw d)
  let operationsUsagePercent := usagePercentField operationsUsed operationsLimit
  let errorRate := errorRateField totalScenarios errorScenarios
  let healthScore :=
    calculateHealthScore operationsUsagePercent errorRate inactiveScenarios totalScenarios
  { platform := "make", url := d.url, timestamp := some capturedAt,
    operationsUsed, operationsLimit, totalScenarios, activeScenarios,
    errorScenarios, inactiveScenarios,
    planName := extractPlanName d, teamName := extractTeamName d,
    operationsUsagePercent, errorRate, healthScore }

/-- The scenario-A fixture: the usage area exposes the ratio text near
the operations label (no structured usage selectors match), and the list
shows 15 rows of which 2 carry an error status and 3 a paused status. -/
def fixtureA : MakeDoc :=
  { url := "https://us1.make.com/dashboard",
    opsLabelParentText := some "Operations 1,234 of 10,000",
    opsLabelBlockText := some "Operations 1,234 of 10,000",
    scenarioRows := List.replicate 15 {},
    elems := List.replicate 2 (rowStatusElem "error") ++
             List.replicate 3 (rowStatusElem "paused") ++
             List.replicate 10 (rowStatusElem "active") }

example : (extractMakeMetrics fixtureA 0).operationsUsed = JSVal.num 10000 := by decide
example : (extractMakeMetrics fixtureA 0).operationsLimit = JSVal.num 10000 := by decide
example : (extractMakeMetrics fixtureA 0).operationsUsagePercent = some 100 := by decide
example : (extractMakeMetrics fixtureA 0).totalScenarios = 15 := by decide
example : (extractMakeMetrics fixtureA 0).errorScenarios = 2 := by decide
example : (extractMakeMetrics fixtureA 0).inactiveScenarios = 3 := by decide
example : (extractMakeMetrics fixtureA 0).errorRate = some 13 := by decide
example : (extractMakeMetrics fixtureA 0).healthScore = 34 := by decide
example : calculateHealthScore (some 12) (some 13) 3 15 = 64 := by decide

/-- The attempt bound of the retry controller (make.js line 413). -/
def maxAttempts : ℕ := 30

/-- The success criterion of tryExtract (make.js line 419): the coerced
total is positive, or the used-operations value is anything but null
(NaN included, since the source compares with strict inequality against
null). -/
def hasData (m : Metrics) : Bool := (0 < m.totalScenarios : Bool) || m.operationsUsed ≠ JSVal.null

/-- The two messages a finished extraction attempt can send (make.js
lines 424-430).  The failure message carries only the page url, no
metric set and no score. -/
inductive ExtractorMsg where
  | metricsExtracted : Metrics → ExtractorMsg
  | metricsExtractionFailed : String → ExtractorMsg
deriving DecidableEq, Repr

/-- Embedding of one tryExtract call (make.js lines 415-434) given the
post-increment attempt counter: some message when the attempt sequence
stops (success, or the counter reached the bound), none when polling
continues. -/
def tryExtractResult (attempts : ℕ) (d : MakeDoc) (capturedAt : ℤ) : Option ExtractorMsg :=
  let m := extractMakeMetrics d capturedAt
  if hasData m then some (ExtractorMsg.metricsExtracted m)
  else if maxAttempts ≤ attempts then some (ExtractorMsg.metricsExtractionFailed d.url)
  else none

/-- Simulation of the poll loop of init (make.js lines 438-444) under a
success criterion that is never satisfied: each step is one timer
expiry running tryExtract; the result is the final attempt counter and
the list of delays of the timers the loop schedules.  The fuel argument
only makes the recursion structural; any fuel at least maxAttempts is
enough, which the theorems check by comparing two fuels. -/
def pollNoData : ℕ → ℕ → Q → ℕ × List Q
  | 0, attempts, _ => (attempts, [])
  | fuel + 1, attempts, d =>
    let a := attempts + 1
    if maxAttempts ≤ a then (a, [])
    else
      let d2 := jsMin (d * (3 / 2)) 3000
      let r := pollNoData fuel a d2
      (r.1, d2 :: r.2)

/-- The full no-data controller run: init performs one synchronous
attempt, then schedules the first poll after 500 ms (make.js lines
436-444); the result pairs the total number of attempts with the delay
of every scheduled attempt, in order. -/
def makeControllerRun : ℕ × List Q :=
  let r := pollNoData 64 1 500
  (r.1, 500 :: r.2)

/-- Checks that every adjacent delay pair follows the source update
rule: next delay equals min of 1.5 times the previous and 3000. -/
def stepRelOk : List Q → Bool
  | a :: b :: rest => (b == jsMin (a * (3 / 2)) 3000) && stepRelOk (b :: rest)
  | _ => true

/-- Checks that a delay list is non-decreasing. -/
def monotoneOk : List Q → Bool
  | a :: b :: rest => (a ≤ b : Bool) && monotoneOk (b :: rest)
  | _ => true

example : makeControllerRun.1 = 30 := by decide
example : makeControllerRun.2.length = 29 := by decide

/-- Event-loop state of the init closure of make.js (lines 436-456):
the shared attempt counter and pollDelay variables, the multiset of
scheduled poll timers (timer id paired with its delay), a fresh-id
counter, and the log of timers that have fired, in order.  The source
stores no timer handle, so nothing can be cancelled. -/
structure PollState where
  attempts : ℕ
  pollDelay : Q
  pending : List (ℕ × Q)
  nextId : ℕ
  executed : List ℕ
deriving DecidableEq, Repr

/-- A scheduled poll timer fires (success criterion never satisfied, as
in the reset scenario of the claims): the timer leaves the pending set,
tryExtract increments the shared counter, and unless the bound is
reached the loop schedules one new timer with the updated delay
(make.js lines 439-443). -/
def fireStep (id : ℕ) (s : PollState) : PollState :=
  match s.pending.find? (fun p => p.1 == id) with
  | none => s
  | some _ =>
    let pendingLeft := s.pending.filter (fun p => p.1 ≠ id)
    let a := s.attempts + 1
    let ran := s.executed ++ [id]
    if maxAttempts ≤ a then
      { s with pending := pendingLeft, attempts := a, executed := ran }
    else
      let d2 := jsMin (s.pollDelay * (3 / 2)) 3000
      { attempts := a, pollDelay := d2,
        pending := pendingLeft ++ [(s.nextId, d2)],
        nextId := s.nextId + 1, executed := ran }

/-- The SPA-navigation handler of init (make.js lines 448-455): reset
the attempt counter to 0 and schedule one more poll after 1000 ms.  The
source never calls clearTimeout, so the previously pending timers stay
pending. -/
def navStep (s : PollState) : PollState :=
  { s with attempts := 0,
           pending := s.pending ++ [(s.nextId, 1000)],
           nextId := s.nextId + 1 }

/-- State reached right after init ran its synchronous attempt on a page
with no data and scheduled the first poll at 500 ms. -/
def pollStart : PollState :=
  { attempts := 1, pollDelay := 500, pending := [(0, 500)], nextId := 1, executed := [] }

example : (navStep pollStart).pending = [(0, 500), (1, 1000)] := by decide
example : (fireStep 0 (navStep pollStart)).executed = [0] := by decide

/-- Background coordinator state (popup.js service-worker part, lines
280-334): the per-platform metrics store and the badge for the
extractor tab; the empty badge text is the cleared badge. -/
structure BGState where
  zapierStore : Option Metrics
  makeStore : Option Metrics
  badgeText : String
  badgeColor : String
deriving DecidableEq, Repr

/-- The incoming message kinds of the background onMessage listener
(popup.js service-worker part, lines 287-310). -/
inductive BGMessage where
  | metricsExtracted : Metrics → BGMessage
  | getMetrics : BGMessage
  | openPopup : Option Metrics → BGMessage
  | analyzeTab : BGMessage
  | metricsExtractionFailed : String → BGMessage
deriving DecidableEq, Repr

/-- Responses of the background listener: the snapshot map for
GET METRICS, and the kept-open asynchronous channel for ANALYZE TAB. -/
inductive BGReply where
  | storeSnapshot : Option Metrics → Option Metrics → BGReply
  | asyncPending : BGReply
deriving DecidableEq, Repr

/-- Badge color thresholds (getScoreColor, identical in both source
files). -/
def getScoreColor (score : ℤ) : String :=
  if 80 ≤ score then "#22c55e"
  else if 60 ≤ score then "#eab308"
  else if 40 ≤ score then "#f97316"
  else "#ef4444"

/-- Store update keyed by the platform field (the two keys of the
metricsStore object; other platform strings would create a fresh key
the rest of the code never reads, which is not modelled). -/
def storePut (s : BGState) (m : Metrics) : BGState :=
  if m.platform = "zapier" then { s with zapierStore := some m }
  else if m.platform = "make" then { s with makeStore := some m }
  else s

/-- Embedding of handleMetricsExtracted (popup.js service-worker part,
lines 315-335): guard on a truthy platform, store, and set the badge to
the score text and color. -/
def handleMetricsExtracted (m : Metrics) (s : BGState) : BGState :=
  if m.platform = "" then s
  else
    let s1 := storePut s m
    { s1 with badgeText := toString m.healthScore, badgeColor := getScoreColor m.healthScore }

/-- Embedding of the background onMessage switch (popup.js
service-worker part, lines 287-310).  The switch has no case for the
extraction-failed message, so that message falls through with no state
change and no response. -/
def handleMessage (msg : BGMessage) (s : BGState) : BGState × Option BGReply :=
  match msg with
  | .metricsExtracted m => (handleMetricsExtracted m s, none)
  | .getMetrics => (s, some (BGReply.storeSnapshot s.zapierStore s.makeStore))
  | .openPopup mo =>
    (match mo with
     | some m => (storePut s m, none)
     | none => (s, none))
  | .analyzeTab => (s, some BGReply.asyncPending)
  | .metricsExtractionFailed _ => (s, none)

/-- Embedding of isRecent (popup.js lines 53-57): a missing timestamp
is falsy and immediately classified not recent; otherwise the age must
be under five minutes.  The timestamp argument is the parsed epoch
milliseconds of the stored ISO string, none when the field is absent. -/
def isRecent (timestamp : Option ℤ) (now : ℤ) : Bool :=
  match timestamp with
  | none => false
  | some t => now - t < 5 * 60 * 1000

/-- What the popup does on startup once metrics were read from storage
(popup.js lines 28-41): display them when present and recent, otherwise
request a fresh extraction. -/
inductive StartupAction where
  | display : Metrics → StartupAction
  | requestFresh : StartupAction
deriving DecidableEq, Repr

/-- Embedding of the startup decision of the DOMContentLoaded handler
(popup.js lines 28-41). -/
def popupStartup (stored : Option Metrics) (now : ℤ) : StartupAction :=
  match stored with
  | some m => if isRecent m.timestamp now then StartupAction.display m else StartupAction.requestFresh
  | none => StartupAction.requestFresh

/-- The view the popup ends in (popup.js showState targets). -/
inductive PopupView where
  | health : ℤ → PopupView
  | noPlatform : PopupView
deriving DecidableEq, Repr

/-- The score displayMetrics renders (popup.js line 110); the or-else 0
coercion is the identity here because a stored metric set always has a
computed integer score. -/
def displayedScore (m : Metrics) : ℤ := m.healthScore

/-- Resolution of the popup after a fresh-extraction request (popup.js
lines 72-88): stored metrics are displayed, and with nothing stored the
popup shows the no-platform state, never a score. -/
def popupResolve (stored : Option Metrics) : PopupView :=
  match stored with
  | some m => PopupView.health (displayedScore m)
  | none => PopupView.noPlatform

/-- A query result is carved out of the document, so its size is
bounded by the document size. -/
theorem queryAllFirst_length_le (ps : List (Elem → Bool)) (doc : List Elem) :
    (queryAllFirst ps doc).length ≤ doc.length := by
  induction ps with
  | nil => simp [queryAllFirst]
  | cons p rest ih =>
    simp only [queryAllFirst]
    split
    · exact ih
    · exact List.length_filter_le p doc

/-- A count accepted by the structured strategy is bounded by the
document size. -/
theorem strat1Count_le (doc : List Elem) (ts : List String) :
    ∀ k, strat1Count doc ts = some k → k ≤ doc.length := by
  induction ts with
  | nil => intro k h; simp [strat1Count] at h
  | cons t rest ih =>
    intro k h
    simp only [strat1Count] at h
    split at h
    · cases h
      exact queryAllFirst_length_le _ _
    · exact ih k h

/-- A count produced by the toggle strategy is bounded by the document
size. -/
theorem strat3Count_le (doc : List Elem) (status : String) :
    ∀ k, strat3Count doc status = some k → k ≤ doc.length := by
  intro k h
  unfold strat3Count at h
  split at h
  · cases h
    exact queryAllFirst_length_le _ _
  · split at h
    · cases h
      exact queryAllFirst_length_le _ _
    · cases h

/-- The count of countScenariosByStatus is bounded by the number of
elements: every element contributes at most once, whatever strategy is
accepted and however many synonyms it matches. -/
theorem countScenariosByStatus_le (doc : List Elem) (status : String) :
    countScenariosByStatus doc status ≤ doc.length := by
  simp only [countScenariosByStatus]
  cases h1 : strat1Count doc (statusTerms status) with
  | some k => exact strat1Count_le doc _ k h1
  | none =>
    simp only []
    split
    · exact le_trans (List.length_filter_le _ _) (queryAllFirst_length_le _ _)
    · cases h3 : strat3Count doc status with
      | some k => exact strat3Count_le doc status k h3
      | none => simp

/-- On a list of characters none of which satisfies p there is no run. -/
theorem runsOfAux_all_neg (p : Char → Bool) :
    ∀ l : List Char, (∀ c ∈ l, p c = false) → runsOfAux p l [] = [] := by
  intro l
  induction l with
  | nil => intro _; rfl
  | cons c cs ih =>
    intro h
    have hc : p c = false := h c (List.mem_cons_self c cs)
    simp only [runsOfAux, hc, List.isEmpty_nil, if_true, Bool.false_eq_true, if_false]
    exact ih (fun x hx => h x (List.mem_cons_of_mem c hx))

/-- Every run delivered by runsOfAux is non-empty, consists of
characters satisfying p, and of characters drawn from the input or the
accumulator. -/
theorem runsOfAux_sound (p : Char → Bool) (P : Char → Prop) :
    ∀ (l acc : List Char), (∀ c ∈ l, P c) → (∀ c ∈ acc, P c ∧ p c = true) →
      ∀ r ∈ runsOfAux p l acc, r ≠ [] ∧ ∀ c ∈ r, P c ∧ p c = true := by
  intro l
  induction l with
  | nil =>
    intro acc _ hacc r hr
    simp only [runsOfAux] at hr
    by_cases he : acc.isEmpty
    · simp [he] at hr
    · simp [he] at hr
      subst hr
      refine ⟨?_, ?_⟩
      · simp only [ne_eq, List.reverse_eq_nil_iff]
        intro hnil
        rw [hnil] at he
        exact he rfl
      · intro c hc
        exact hacc c (List.mem_reverse.mp hc)
  | cons c cs ih =>
    intro acc hl hacc r hr
    have hPc : P c := hl c (List.mem_cons_self c cs)
    have hltail : ∀ x ∈ cs, P x := fun x hx => hl x (List.mem_cons_of_mem c hx)
    simp only [runsOfAux] at hr
    by_cases hp : p c
    · rw [if_pos hp] at hr
      refine ih (c :: acc) hltail ?_ r hr
      intro x hx
      rcases List.mem_cons.mp hx with hx1 | hx2
      · subst hx1; exact ⟨hPc, hp⟩
      · exact hacc x hx2
    · rw [if_neg hp] at hr
      by_cases he : acc.isEmpty
      · rw [if_pos he] at hr
        exact ih [] hltail (by intro x hx; cases hx) r hr
      · rw [if_neg he] at hr
        rcases List.mem_cons.mp hr with hr1 | hr2
        · subst hr1
          refine ⟨?_, ?_⟩
          · simp only [ne_eq, List.reverse_eq_nil_iff]
            intro hnil
            rw [hnil] at he
            exact he rfl
          · intro x hx
            exact hacc x (List.mem_reverse.mp hx)
        · exact ih [] hltail (by intro x hx; cases hx) r hr2

/-- parseFloat of a non-empty all-dot token is NaN: no digit is ever
read. -/
theorem parseFloatL_dots (c : Char) (cs : List Char) (hc : c = '.')
    (hcs : ∀ x ∈ cs, x = '.') : parseFloatL (c :: cs) = JSVal.nan := by
  subst hc
  have hdrop : List.dropWhile Char.isWhitespace ('.' :: cs) = '.' :: cs := by
    rw [List.dropWhile_cons]
    simp
  have hsign : parseSignC ('.' :: cs) = (false, '.' :: cs) := by
    simp [parseSignC]
  have hint : takeWhileP Char.isDigit ('.' :: cs) = ([], '.' :: cs) := by
    simp [takeWhileP]
  have htail : takeWhileP Char.isDigit cs = ([], cs) := by
    cases cs with
    | nil => rfl
    | cons x t =>
      have hx : x = '.' := hcs x (List.mem_cons_self x t)
      subst hx
      simp [takeWhileP]
  have hfrac : parseFracC ('.' :: cs) = ([], cs) := by
    simp [parseFracC, htail]
  simp only [parseFloatL, hdrop, hsign, hint, hfrac, List.isEmpty_nil, Bool.and_self, if_true]

/-- The document with every query unresolved. -/
def emptyMakeDoc : MakeDoc := {}

/-- A document whose only signal is a scenario-count element reading a
measured zero. -/
def zeroCountMakeDoc : MakeDoc := { scenarioCountText := some "0" }

/-- Metrics entry with a missing timestamp field (a legacy or mangled
cache entry). -/
def noTsMetrics : Metrics :=
  { platform := "make", url := "", timestamp := none,
    operationsUsed := JSVal.null, operationsLimit := JSVal.null,
    totalScenarios := 0, activeScenarios := 0, errorScenarios := 0,
    inactiveScenarios := 0, planName := none, teamName := none,
    operationsUsagePercent := none, errorRate := none, healthScore := 100 }

/-- Three elements each flagged by one structured synonym of the error
category: one data-status error, two data-status failed. -/
def c6StructuredDoc : List Elem :=
  [rowStatusElem "error", rowStatusElem "failed", rowStatusElem "failed"]

/-- An element structurally flagged by some synonym of the given
category (the union of the strategy-1 selectors over all synonyms),
used to state the whole-category total. -/
def matchesCategoryStructured (terms : List String) (e : Elem) : Bool :=
  terms.any (fun t =>
    selTestIdEq ("scenario-status-" ++ t) e || selDataStatusEq t e || selAriaStatus t e)

/-- One status element whose text matches two synonyms of the error
category. -/
def c6TwoSynonymDoc : List Elem := [{ className := "status-cell", text := "error failed" }]

/-- Background state in which the badge currently shows a score. -/
def c8State : BGState :=
  { zapierStore := none, makeStore := none, badgeText := "54", badgeColor := "#f97316" }

/-- C1 counterexample: on the scenario-A fixture (usage area exposing
the text 1,234 of 10,000 near the operations label, 15 rows, 2 error,
3 paused) the extracted usage count is not 1234, the usage percent is
not 12, and the health score is not 54; moreover even on the metric
values the claim itself lists, the scorer yields 64, not 54, because
the paused penalty is half the paused rate capped at 15, not the paused
rate capped at 20. -/
theorem c1_scenarioA_counterexample :
    (extractMakeMetrics fixtureA 0).operationsUsed ≠ JSVal.num 1234
    ∧ (extractMakeMetrics fixtureA 0).operationsUsagePercent ≠ some 12
    ∧ (extractMakeMetrics fixtureA 0).healthScore ≠ 54
    ∧ calculateHealthScore (some 12) (some 13) 3 15 = 64 := by decide

/-- C1 amended: on the scenario-A fixture one extraction pass yields
usageCount 10000 (the near-label heuristic takes the largest number
near the label), usageLimit 10000, usagePercent 100, itemTotal 15,
itemsInErrorState 2, itemsPaused 3, errorRate 13, and the health score
is 100 minus 30 (usage above 90) minus 26 (error penalty) minus 10
(half the 20 percent paused rate, capped at 15), that is 34. -/
theorem c1_scenarioA_amended :
    (extractMakeMetrics fixtureA 0).operationsUsed = JSVal.num 10000
    ∧ (extractMakeMetrics fixtureA 0).operationsLimit = JSVal.num 10000
    ∧ (extractMakeMetrics fixtureA 0).operationsUsagePercent = some 100
    ∧ (extractMakeMetrics fixtureA 0).totalScenarios = 15
    ∧ (extractMakeMetrics fixtureA 0).errorScenarios = 2
    ∧ (extractMakeMetrics fixtureA 0).inactiveScenarios = 3
    ∧ (extractMakeMetrics fixtureA 0).errorRate = some 13
    ∧ (extractMakeMetrics fixtureA 0).healthScore = 34 := by decide

/-- C2 counterexample: a document with no item signal at all and a
document measuring an explicit zero item count produce identical metric
sets; the unresolved item total is coerced to the number 0 (the raw
values, null versus 0, still differ before the or-else-0 coercion), so
"not found" is not distinguishable from a measured 0. -/
theorem c2_absent_counterexample :
    extractMakeMetrics zeroCountMakeDoc 0 = extractMakeMetrics emptyMakeDoc 0
    ∧ (extractMakeMetrics emptyMakeDoc 0).totalScenarios = 0
    ∧ totalScenariosRaw emptyMakeDoc = JSVal.null
    ∧ totalScenariosRaw zeroCountMakeDoc = JSVal.num 0 := by decide

/-- C2 amended: the usage fields, derived percentages, plan and team
stay explicitly absent (null) when unresolved, but the item total is
coerced to the number 0 when unresolved, and the status counts return a
plain 0, so those two are not distinguishable from a measured zero. -/
theorem c2_absent_amended :
    (∀ (d : MakeDoc) (t : ℤ), d.opsUsedTestIdText = none → d.opsUsedAriaText = none →
      d.opsLabelParentText = none → d.opsProgressValuenow = none →
      (extractMakeMetrics d t).operationsUsed = JSVal.null)
    ∧ (extractMakeMetrics emptyMakeDoc 0).operationsUsed = JSVal.null
    ∧ (extractMakeMetrics emptyMakeDoc 0).operationsLimit = JSVal.null
    ∧ (extractMakeMetrics emptyMakeDoc 0).operationsUsagePercent = none
    ∧ (extractMakeMetrics emptyMakeDoc 0).errorRate = none
    ∧ (extractMakeMetrics emptyMakeDoc 0).planName = none
    ∧ (extractMakeMetrics emptyMakeDoc 0).teamName = none
    ∧ (extractMakeMetrics emptyMakeDoc 0).totalScenarios = 0 := by
  refine ⟨?_, by decide, by decide, by decide, by decide, by decide, by decide, by decide⟩
  intro d t h1 h2 h3 h4
  simp only [extractMakeMetrics]
  simp [extractOperationsUsed, h1, h2, h3, h4, findValueNearLabel]

/-- C2 witness: the amended generality applied to the concrete
all-unresolved document. -/
theorem c2_absent_witness :
    (extractMakeMetrics emptyMakeDoc 0).operationsUsed = JSVal.null :=
  c2_absent_amended.1 emptyMakeDoc 0 rfl rfl rfl rfl

/-- C3 counterexample: from the state with one pending scheduled
attempt, a navigation reset leaves two attempts pending (the reset does
not cancel the outstanding timer), and the attempt scheduled before the
reset (timer 0) still fires and runs after it. -/
theorem c3_reset_counterexample :
    (navStep pollStart).pending.length = 2
    ∧ (navStep pollStart).pending = [(0, 500), (1, 1000)]
    ∧ (fireStep 0 (navStep pollStart)).executed = [0]
    ∧ (fireStep 0 (navStep pollStart)).attempts = 1 := by decide

/-- C3 amended: a navigation reset sets the attempt counter back to 0
and schedules one additional attempt after 1000 ms, but never cancels
the pending scheduled attempts, so the number of pending attempts grows
by one on every reset, and attempts scheduled before the reset remain
pending and can still run after it. -/
theorem c3_reset_amended (s : PollState) :
    (navStep s).attempts = 0
    ∧ (navStep s).pending = s.pending ++ [(s.nextId, 1000)]
    ∧ (navStep s).pending.length = s.pending.length + 1 := by
  refine ⟨rfl, rfl, ?_⟩
  simp [navStep]

/-- C4 counterexample: with a present, measured usage count of 0 and a
positive limit, the code leaves the usage percent absent because the JS
truthiness guard treats the number 0 like an absent value, while the
claim requires round(100 times 0 over 10000) = 0. -/
theorem c4_percent_counterexample :
    usagePercentField (JSVal.num 0) (JSVal.num 10000) = none
    ∧ usagePercentField (JSVal.num 0) (JSVal.num 10000) ≠ some 0
    ∧ jsRound ((0 : Q) / 10000 * 100) = 0 := by decide

/-- C4 amended: usagePercent equals round(100 times usageCount over
usageLimit) exactly when both operands are present, non-NaN and
non-zero (so a present usageCount of 0 stays Absent); null or NaN on
either side gives Absent; errorRate equals round(100 times errors over
itemTotal) exactly when the coerced itemTotal is positive.  The first
two conjuncts tie the two field computations to the full extractor. -/
theorem c4_percent_amended :
    (∀ (d : MakeDoc) (t : ℤ), (extractMakeMetrics d t).operationsUsagePercent =
        usagePercentField (extractOperationsUsed d) (extractOperationsLimit d))
    ∧ (∀ (d : MakeDoc) (t : ℤ), (extractMakeMetrics d t).errorRate =
        errorRateField (jsNumOrZero (totalScenariosRaw d)) (countScenariosByStatus d.elems "error"))
    ∧ (∀ a b : Q, usagePercentField (JSVal.num a) (JSVal.num b) =
        if a ≠ 0 ∧ b ≠ 0 then some (jsRound (a / b * 100)) else none)
    ∧ (∀ v, usagePercentField JSVal.null v = none)
    ∧ (∀ v, usagePercentField v JSVal.null = none)
    ∧ (∀ v, usagePercentField JSVal.nan v = none)
    ∧ (∀ v, usagePercentField v JSVal.nan = none)
    ∧ (∀ (tot : Q) (e : ℕ), errorRateField tot e =
        if 0 < tot then some (jsRound (qofNat e / tot * 100)) else none) := by
  refine ⟨fun d t => rfl, fun d t => rfl, ?_, ?_, ?_, ?_, ?_, fun tot e => rfl⟩
  · intro a b
    by_cases ha : a = 0 <;> by_cases hb : b = 0 <;>
      simp [usagePercentField, truthy, jsNumOrZero, ha, hb]
  · intro v; simp [usagePercentField, truthy]
  · intro v; cases v <;> simp [usagePercentField, truthy]
  · intro v; simp [usagePercentField, truthy]
  · intro v; cases v <;> simp [usagePercentField, truthy]

/-- C5: with the success criterion never satisfied and no reset, the
controller performs exactly 30 extraction attempts and stops; the 29
scheduled delays start at 500 ms, each next delay is min of 1.5 times
the previous and 3000 ms, the sequence is non-decreasing and capped at
3000 ms.  The last conjunct checks the simulation fuel is generous
(equal results with far more fuel), so the run stops by reaching the
attempt bound, not by fuel. -/
theorem c5_controller :
    makeControllerRun.1 = 30
    ∧ makeControllerRun.2.length = 29
    ∧ makeControllerRun.2.head? = some 500
    ∧ stepRelOk makeControllerRun.2 = true
    ∧ monotoneOk makeControllerRun.2 = true
    ∧ makeControllerRun.2.all (fun x => x ≤ (3000 : Q)) = true
    ∧ pollNoData 64 1 500 = pollNoData 300 1 500 := by decide

/-- C6 counterexample: with one element flagged data-status error and
two flagged data-status failed, the structured strategy accepts the
count of the first synonym with any match (1), not the non-zero total
across the whole category (3 elements are flagged by some synonym). -/
theorem c6_count_counterexample :
    countScenariosByStatus c6StructuredDoc "error" = 1
    ∧ (c6StructuredDoc.filter (matchesCategoryStructured (statusTerms "error"))).length = 3 := by decide

/-- C6 amended: countByCategory returns the first strategy (and within
the structured strategy, the first synonym) with a non-zero count, so
strategies are never summed and every element contributes at most one
to the result, whatever strategies or synonyms it matches: the count is
bounded by the number of elements, and an element whose text matches
two synonyms of the category is counted exactly once. -/
theorem c6_count_amended :
    (∀ (doc : List Elem) (status : String), countScenariosByStatus doc status ≤ doc.length)
    ∧ countScenariosByStatus c6TwoSynonymDoc "error" = 1 :=
  ⟨fun doc status => countScenariosByStatus_le doc status, by decide⟩

/-- C7 counterexample: the input consisting of a single dot contains no
digit, yet the normalizer returns NaN (the digit-dot match succeeds on
the dot and parseFloat of a dot is NaN), not the absent value null. -/
theorem c7_toNumber_counterexample :
    (String.toList ".").all (fun c => !c.isDigit) = true
    ∧ extractNumber "." ≠ JSVal.null
    ∧ extractNumber "." = JSVal.nan := by decide

/-- C7 amended: the normalizer is a total function (never throws); an
input with no digit and no dot yields Absent; an input with no digit
yields Absent or NaN (NaN exactly when a dot run is matched); and the
given examples hold: toNumber of "1,234" is 1234, of "42%" is 42, of
the empty string is Absent. -/
theorem c7_toNumber_amended :
    (∀ s : String, s.toList.all (fun c => !numC c) = true → extractNumber s = JSVal.null)
    ∧ (∀ s : String, s.toList.all (fun c => !c.isDigit) = true →
        extractNumber s = JSVal.null ∨ extractNumber s = JSVal.nan)
    ∧ extractNumber "1,234" = JSVal.num 1234
    ∧ extractNumber "42%" = JSVal.num 42
    ∧ extractNumber "" = JSVal.null := by
  refine ⟨?_, ?_, by decide, by decide, by decide⟩
  · intro s hs
    by_cases hse : s = ""
    · simp [extractNumber, hse]
    · have hall : ∀ c ∈ s.toList.filter (fun c => !(c == ',') && !c.isWhitespace),
          numC c = false := by
        intro c hc
        have hmem := (List.mem_filter.mp hc).1
        have := List.all_eq_true.mp hs c hmem
        simpa using this
      have hnone : firstRun numC
          (s.toList.filter (fun c => !(c == ',') && !c.isWhitespace)) = none := by
        unfold firstRun runsOf
        rw [runsOfAux_all_neg numC _ hall]
        rfl
      unfold extractNumber
      rw [if_neg hse]
      dsimp only
      rw [hnone]
  · intro s hs
    by_cases hse : s = ""
    · left; simp [extractNumber, hse]
    · cases hfr : firstRun numC
          (s.toList.filter (fun c => !(c == ',') && !c.isWhitespace)) with
      | none =>
        left
        unfold extractNumber
        rw [if_neg hse]
        dsimp only
        rw [hfr]
      | some run =>
        right
        have hmemrun : run ∈ runsOf numC
            (s.toList.filter (fun c => !(c == ',') && !c.isWhitespace)) := by
          unfold firstRun at hfr
          exact List.mem_of_mem_head? hfr
        have hsound := runsOfAux_sound numC (fun c => c.isDigit = false)
          (s.toList.filter (fun c => !(c == ',') && !c.isWhitespace)) []
          (fun c hc => by
            have hmem := (List.mem_filter.mp hc).1
            simpa using List.all_eq_true.mp hs c hmem)
          (by intro x hx; cases hx) run hmemrun
        obtain ⟨hne, hall⟩ := hsound
        have hdots : ∀ x ∈ run, x = '.' := by
          intro x hx
          obtain ⟨hd, hn⟩ := hall x hx
          simpa [numC, hd] using hn
        cases run with
        | nil => exact absurd rfl hne
        | cons c0 rest =>
          have hnan := parseFloatL_dots c0 rest (hdots c0 (List.mem_cons_self c0 rest))
            (fun x hx => hdots x (List.mem_cons_of_mem c0 hx))
          unfold extractNumber
          rw [if_neg hse]
          dsimp only
          rw [hfr]
          exact hnan

/-- C7 witness: the amended generalities applied to concrete inputs, an
all-letter input giving Absent and the dot input giving NaN. -/
theorem c7_toNumber_witness :
    extractNumber "abc" = JSVal.null
    ∧ (extractNumber "." = JSVal.null ∨ extractNumber "." = JSVal.nan) :=
  ⟨c7_toNumber_amended.1 "abc" (by decide), c7_toNumber_amended.2.1 "." (by decide)⟩

/-- C8 counterexample: with the badge showing a score, receiving the
extraction-failed message leaves the badge text unchanged (it is not
cleared to the empty string) and produces no response: the background
switch has no case for this message. -/
theorem c8_failed_counterexample :
    (handleMessage (BGMessage.metricsExtractionFailed "https://us1.make.com/x") c8State).1.badgeText = "54"
    ∧ (handleMessage (BGMessage.metricsExtractionFailed "https://us1.make.com/x") c8State).1.badgeText ≠ ""
    ∧ (handleMessage (BGMessage.metricsExtractionFailed "https://us1.make.com/x") c8State).2 = none := by decide

/-- C8 amended: the coordinator ignores the extraction-failed message
entirely: for every state and source url, handling it returns the state
unchanged (badge included) and produces no response; nothing is cleared. -/
theorem c8_failed_amended (s : BGState) (url : String) :
    handleMessage (BGMessage.metricsExtractionFailed url) s = (s, none) := rfl

/-- C9: when extraction finds no data and the attempt bound is reached,
the reported outcome is the distinct extraction-failed message carrying
only the source url (a different constructor from any metric-set
message, hence representable and displayable distinctly), and the popup
resolves an absent snapshot to the no-platform view, which is distinct
from every score view, in particular from a zero health score. -/
theorem c9_exhausted (d : MakeDoc) (t : ℤ) (a : ℕ)
    (hnd : hasData (extractMakeMetrics d t) = false) (ha : maxAttempts ≤ a) :
    tryExtractResult a d t = some (ExtractorMsg.metricsExtractionFailed d.url)
    ∧ (∀ m : Metrics, ExtractorMsg.metricsExtractionFailed d.url ≠ ExtractorMsg.metricsExtracted m)
    ∧ popupResolve none = PopupView.noPlatform
    ∧ (∀ z : ℤ, PopupView.noPlatform ≠ PopupView.health z) := by
  refine ⟨?_, ?_, rfl, ?_⟩
  · simp [tryExtractResult, hnd, ha]
  · intro m h; cases h
  · intro z h; cases h

/-- C9 witness: the exhausted outcome on the concrete all-unresolved
document at the attempt bound. -/
theorem c9_exhausted_witness :
    tryExtractResult 30 emptyMakeDoc 0 =
      some (ExtractorMsg.metricsExtractionFailed emptyMakeDoc.url) :=
  (c9_exhausted emptyMakeDoc 0 30 (by decide) (by decide)).1

/-- C10: a cached metrics object whose timestamp is missing is
classified not recent by the freshness check, so the popup startup path
never displays it as fresh and requests a new extraction instead. -/
theorem c10_missing_timestamp (m : Metrics) (now : ℤ) (h : m.timestamp = none) :
    isRecent m.timestamp now = false
    ∧ popupStartup (some m) now = StartupAction.requestFresh
    ∧ (∀ m2, StartupAction.requestFresh ≠ StartupAction.display m2) := by
  refine ⟨by rw [h]; rfl, ?_, ?_⟩
  · simp [popupStartup, h, isRecent]
  · intro m2 hcon; cases hcon

/-- C10 witness: the freshness rule applied to a concrete cache entry
with no timestamp. -/
theorem c10_missing_timestamp_witness :
    popupStartup (some noTsMetrics) 0 = StartupAction.requestFresh :=
  (c10_missing_timestamp noTsMetrics 0 rfl).2.1

end FlowFix
